import Mathlib

/-
Verification of the AutoFinance agent core (agent_langgraph/agentic_workflow).

Shallow embedding conventions:
- Python floats are modelled as exact rationals (ℚ); `round(x, nd)` (Python's
  round-half-even) is modelled as exact decimal round-half-even on ℚ.
- Fallible functions (those that raise ValueError) are modelled with Except.
- `datetime.now().year` is modelled as an explicit `current_year` parameter,
  held fixed over a conversation trace.
- External collaborators (LLM extraction results, Tavily search results,
  storage-generated ids) are modelled as nondeterministic inputs, following
  the spec architecture, which places them outside the core.
-/

namespace AutoFinance

/-- Round-half-even of a rational to an integer, as Python's built-in round
performs on exact decimal values: the fractional part x - ⌊x⌋ below one half
rounds down, above one half rounds up, and exactly one half rounds to the even
neighbour (the comparisons are phrased as 2·x against 2·⌊x⌋ + 1, which is
equivalent and evaluates better). -/
def roundHalfEven (x : ℚ) : ℤ :=
  let f := ⌊x⌋
  if x * 2 < ((2 * f + 1 : ℤ) : ℚ) then f
  else if ((2 * f + 1 : ℤ) : ℚ) < x * 2 then f + 1
  else if f % 2 = 0 then f else f + 1

/-- Absolute value on ℚ written so that norm_num can evaluate it. -/
def ratAbs (q : ℚ) : ℚ := if q < 0 then -q else q

/-- Model of Python round(x, nd): round-half-even at nd decimal places. -/
def pyRound (x : ℚ) (nd : ℕ) : ℚ :=
  (roundHalfEven (x * (10:ℚ) ^ nd) : ℚ) / (10:ℚ) ^ nd

/-- Embeds models.FinancialQuote (pydantic model in models.py). -/
structure FinancialQuote where
  principal : ℚ
  interest_rate : ℚ
  tenure_months : ℤ
  monthly_installment : ℚ
  total_interest : ℚ
  total_amount : ℚ
deriving Repr, DecidableEq

/-- Embeds tools/installment_calculator.py calculate_monthly_installment.
Raising ValueError is modelled as Except.error carrying the message text of the source. -/
def calculate_monthly_installment (principal annual_interest_rate : ℚ)
    (tenure_months : ℤ) : Except String FinancialQuote :=
  if principal ≤ 0 then .error "Principal must be positive"
  else if annual_interest_rate < 0 then .error "Interest rate cannot be negative"
  else if tenure_months ≤ 0 then .error "Tenure must be positive"
  else if annual_interest_rate = 0 then
    let monthly_installment := principal / (tenure_months : ℚ)
    .ok { principal := principal,
          interest_rate := annual_interest_rate,
          tenure_months := tenure_months,
          monthly_installment := pyRound monthly_installment 2,
          total_interest := 0,
          total_amount := principal }
  else
    let r := annual_interest_rate / 12
    let n := tenure_months.toNat
    let compound := (1 + r) ^ n
    let monthly_installment := principal * (r * compound) / (compound - 1)
    let total_amount := monthly_installment * (tenure_months : ℚ)
    let total_interest := total_amount - principal
    .ok { principal := pyRound principal 2,
          interest_rate := annual_interest_rate,
          tenure_months := tenure_months,
          monthly_installment := pyRound monthly_installment 2,
          total_interest := pyRound total_interest 2,
          total_amount := pyRound total_amount 2 }

/-- Embeds tools/installment_calculator.py check_affordability.
Returns (is_affordable, actual_dbr as the source rounds it to 4 places). -/
def check_affordability (monthly_installment monthly_income
    max_debt_burden_ratio : ℚ) : Bool × ℚ :=
  if monthly_income ≤ 0 then (false, 1)
  else
    let actual_dbr := monthly_installment / monthly_income
    (decide (actual_dbr ≤ max_debt_burden_ratio), pyRound actual_dbr 4)

/-- Embeds the policy dictionaries consumed by tools/calculator.py
calculate_loan_options (fields interest_rate (percent), max_tenure_months,
max_dbr; policy_id carries no logic and is omitted). -/
structure LoanPolicy where
  interest_rate : ℚ
  max_tenure_months : ℤ
  max_dbr : ℚ
deriving Repr, DecidableEq

/-- Embeds the quote dictionaries produced by tools/calculator.py
calculate_loan_options (message-only fields omitted). -/
structure LoanQuote where
  monthly_installment : ℚ
  tenure_months : ℤ
  interest_rate : ℚ
  is_affordable : Bool
  dbr_percentage : ℚ
  max_dbr_allowed : ℚ
  principal : ℚ
  downpayment : ℚ
deriving Repr, DecidableEq

/-- Embeds numpy_financial.pmt with fv = 0, when = end, as used by
tools/calculator.py. -/
def npf_pmt (rate : ℚ) (nper : ℤ) (pv : ℚ) : ℚ :=
  if rate = 0 then -(pv / (nper : ℚ))
  else
    let c := (1 + rate) ^ nper.toNat
    Neg.neg (pv * rate * c / (c - 1))

/-- Embeds the per-policy loop body of tools/calculator.py
calculate_loan_options. -/
def quoteForPolicy (vehicle_price user_income existing_debt : ℚ)
    (policy : LoanPolicy) : LoanQuote :=
  let downpayment_ratio : ℚ := 20/100
  let principal := vehicle_price * (1 - downpayment_ratio)
  let rate_monthly := policy.interest_rate / 100 / 12
  let installment := -1 * npf_pmt rate_monthly policy.max_tenure_months principal
  let total_obligation := installment + existing_debt
  let current_dbr := if user_income > 0 then total_obligation / user_income else 1
  let is_affordable := decide (current_dbr ≤ policy.max_dbr)
  { monthly_installment := pyRound installment 2,
    tenure_months := policy.max_tenure_months,
    interest_rate := policy.interest_rate,
    is_affordable := is_affordable,
    dbr_percentage := pyRound (current_dbr * 100) 2,
    max_dbr_allowed := pyRound (policy.max_dbr * 100) 2,
    principal := principal,
    downpayment := vehicle_price * downpayment_ratio }

/-- Embeds tools/calculator.py calculate_loan_options. -/
def calculate_loan_options (vehicle_price user_income existing_debt : ℚ)
    (policies : List LoanPolicy) : List LoanQuote :=
  policies.map (quoteForPolicy vehicle_price user_income existing_debt)

/-- Names the debt burden ratio computed at tools/calculator.py lines 42-44:
(installment + existing_debt) / user_income, with the installment produced by
npf.pmt on the after-downpayment principal. -/
def loanDbr (vehicle_price user_income existing_debt : ℚ) (pol : LoanPolicy) : ℚ :=
  (-1 * npf_pmt (pol.interest_rate / 100 / 12) pol.max_tenure_months
      (vehicle_price * (1 - 20/100)) + existing_debt) / user_income

/-- Helper: the happy-path unfolding of calculate_monthly_installment for a
strictly positive rate. -/
theorem calc_ok_of_valid (p r : ℚ) (n : ℤ) (hp : 0 < p) (hr : 0 < r) (hn : 0 < n) :
    calculate_monthly_installment p r n =
      .ok { principal := pyRound p 2,
            interest_rate := r,
            tenure_months := n,
            monthly_installment :=
              pyRound (p * (r / 12 * (1 + r / 12) ^ n.toNat) /
                ((1 + r / 12) ^ n.toNat - 1)) 2,
            total_interest :=
              pyRound (p * (r / 12 * (1 + r / 12) ^ n.toNat) /
                ((1 + r / 12) ^ n.toNat - 1) * (n : ℚ) - p) 2,
            total_amount :=
              pyRound (p * (r / 12 * (1 + r / 12) ^ n.toNat) /
                ((1 + r / 12) ^ n.toNat - 1) * (n : ℚ)) 2 } := by
  unfold calculate_monthly_installment
  rw [if_neg (not_le.mpr hp), if_neg (not_lt.mpr hr.le), if_neg (not_le.mpr hn),
    if_neg hr.ne']

set_option maxRecDepth 40000

set_option maxHeartbeats 1600000

/-- Helper: the concrete installment of the spec scenario, rounded, lies
within one cent of 9515.98. -/
theorem c5_concrete_installment :
    ratAbs (pyRound ((400000:ℚ) * ((15:ℚ)/100 / 12 * (1 + (15:ℚ)/100 / 12) ^ (60:ℕ)) /
      ((1 + (15:ℚ)/100 / 12) ^ (60:ℕ) - 1)) 2 - 951598/100) ≤ 1/100 := by
  norm_num [pyRound, roundHalfEven, ratAbs]

/-- Helper: in the spec scenario the rounded total interest equals the rounded
total payment minus the rounded principal. -/
theorem c5_concrete_interest :
    pyRound ((400000:ℚ) * ((15:ℚ)/100 / 12 * (1 + (15:ℚ)/100 / 12) ^ (60:ℕ)) /
      ((1 + (15:ℚ)/100 / 12) ^ (60:ℕ) - 1) * ((60:ℤ) : ℚ) - 400000) 2 =
      pyRound ((400000:ℚ) * ((15:ℚ)/100 / 12 * (1 + (15:ℚ)/100 / 12) ^ (60:ℕ)) /
      ((1 + (15:ℚ)/100 / 12) ^ (60:ℕ) - 1) * ((60:ℤ) : ℚ)) 2 - pyRound 400000 2 := by
  norm_num [pyRound, roundHalfEven]

/-- C5: the amortization function implements the annuity formula with
r = annual_rate/12 and n = tenure_months, with total_payment = installment·n
and total_interest = total_payment − principal, each output rounded to two
decimals (round-half-even) as the source does; at principal 400000, rate 0.15,
tenure 60 the returned installment is within 0.01 of 9515.98 and the returned
total_interest equals total_amount − principal exactly. -/
theorem calc_amortization_correct (p r : ℚ) (n : ℤ)
    (hp : 0 < p) (hr : 0 < r) (hn : 0 < n) :
    (∃ q, calculate_monthly_installment p r n = .ok q ∧
      q.monthly_installment =
        pyRound (p * (r / 12 * (1 + r / 12) ^ n.toNat) /
          ((1 + r / 12) ^ n.toNat - 1)) 2 ∧
      q.total_amount =
        pyRound (p * (r / 12 * (1 + r / 12) ^ n.toNat) /
          ((1 + r / 12) ^ n.toNat - 1) * (n : ℚ)) 2 ∧
      q.total_interest =
        pyRound (p * (r / 12 * (1 + r / 12) ^ n.toNat) /
          ((1 + r / 12) ^ n.toNat - 1) * (n : ℚ) - p) 2 ∧
      q.principal = pyRound p 2) ∧
    (∃ q60, calculate_monthly_installment 400000 (15/100) 60 = .ok q60 ∧
      ratAbs (q60.monthly_installment - 951598/100) ≤ 1/100 ∧
      q60.total_interest = q60.total_amount - q60.principal) := by
  constructor
  · exact ⟨_, calc_ok_of_valid p r n hp hr hn, rfl, rfl, rfl, rfl⟩
  · refine ⟨_, calc_ok_of_valid 400000 (15/100) 60 (by norm_num) (by norm_num)
      (by norm_num), ?_, ?_⟩
    · exact c5_concrete_installment
    · exact c5_concrete_interest

/-- Closed witness for C5 at principal 400000, rate 0.15, tenure 60. -/
theorem calc_amortization_correct_witness :
    (0 < (400000:ℚ) ∧ 0 < (15/100:ℚ) ∧ 0 < (60:ℤ)) ∧
    (∃ q60, calculate_monthly_installment 400000 (15/100) 60 = .ok q60 ∧
      ratAbs (q60.monthly_installment - 951598/100) ≤ 1/100 ∧
      q60.total_interest = q60.total_amount - q60.principal) :=
  ⟨⟨by norm_num, by norm_num, by norm_num⟩,
    (calc_amortization_correct 400000 (15/100) 60 (by norm_num) (by norm_num)
      (by norm_num)).2⟩

/-- C6: the amortization function fails (ValueError, named InvalidInput by the spec)
exactly when principal ≤ 0, rate < 0 or tenure ≤ 0, and succeeds otherwise —
no silent clamping of invalid arguments. -/
theorem calc_invalid_input_iff (p r : ℚ) (n : ℤ) :
    (∃ e, calculate_monthly_installment p r n = .error e) ↔
      (p ≤ 0 ∨ r < 0 ∨ n ≤ 0) := by
  unfold calculate_monthly_installment
  split_ifs <;> simp_all

/-- C7 counterexample: at principal 100, rate 0, tenure 3 the returned
installment is the rounded 33.33, not the exact 100/3 that the claim
demands. -/
theorem zero_rate_not_exact_counterexample :
    ∃ q, calculate_monthly_installment 100 0 3 = .ok q ∧
      q.monthly_installment = 3333/100 ∧ q.monthly_installment ≠ 100/3 := by
  unfold calculate_monthly_installment
  norm_num
  exact ⟨by norm_num [pyRound, roundHalfEven],
    by norm_num [pyRound, roundHalfEven]⟩

/-- C7 amended: with annual_rate = 0 the returned installment is
principal/tenure rounded to two decimals (round-half-even) — exact whenever
principal/tenure has at most two decimals — and total_interest is exactly 0
with total_amount exactly the principal. -/
theorem zero_rate_rounded (p : ℚ) (n : ℤ) (hp : 0 < p) (hn : 0 < n) :
    ∃ q, calculate_monthly_installment p 0 n = .ok q ∧
      q.monthly_installment = pyRound (p / (n : ℚ)) 2 ∧
      q.total_interest = 0 ∧ q.total_amount = p := by
  unfold calculate_monthly_installment
  rw [if_neg (not_le.mpr hp), if_neg (lt_irrefl 0), if_neg (not_le.mpr hn), if_pos rfl]
  exact ⟨_, rfl, rfl, rfl, rfl⟩

/-- Closed witness for the amended C7 at principal 1200, tenure 12. -/
theorem zero_rate_rounded_witness :
    (0 < (1200:ℚ) ∧ 0 < (12:ℤ)) ∧
    ∃ q, calculate_monthly_installment 1200 0 12 = .ok q ∧
      q.monthly_installment = pyRound (1200 / (12 : ℚ)) 2 ∧
      q.total_interest = 0 ∧ q.total_amount = 1200 :=
  ⟨⟨by norm_num, by norm_num⟩, zero_rate_rounded 1200 12 (by norm_num) (by norm_num)⟩

/-- C8: for monthly_income ≤ 0 the affordability check is total — it returns
(is_affordable = false, dbr = 1.0) instead of dividing. -/
theorem affordability_income_guard (inst inc maxr : ℚ) (h : inc ≤ 0) :
    check_affordability inst inc maxr = (false, 1) := by
  unfold check_affordability
  rw [if_pos h]

/-- Closed witness for C8 at installment 5000, income 0. -/
theorem affordability_income_guard_witness :
    (0:ℚ) ≤ 0 ∧ check_affordability 5000 0 (1/2) = (false, 1) :=
  ⟨le_refl 0, affordability_income_guard 5000 0 (1/2) (le_refl 0)⟩

/-- C3: for positive income the loan-option affordability check uses
dbr = (installment + existing_debt)/income, reports it as a percentage rounded
to two decimals, and accepts with an inclusive boundary (dbr equal to the cap
is affordable); check_affordability likewise uses an inclusive ≤ on its
debt-free ratio. -/
theorem dbr_formula_inclusive (v inc debt : ℚ) (pol : LoanPolicy) (h : 0 < inc) :
    ((quoteForPolicy v inc debt pol).is_affordable = true ↔
      loanDbr v inc debt pol ≤ pol.max_dbr) ∧
    (quoteForPolicy v inc debt pol).dbr_percentage =
      pyRound (loanDbr v inc debt pol * 100) 2 ∧
    (loanDbr v inc debt pol = pol.max_dbr →
      (quoteForPolicy v inc debt pol).is_affordable = true) ∧
    (∀ m : ℚ, m / inc = pol.max_dbr →
      (check_affordability m inc pol.max_dbr).1 = true) := by
  have hni : ¬ inc ≤ 0 := not_le.mpr h
  refine ⟨?_, ?_, ?_, ?_⟩
  · simp only [quoteForPolicy, loanDbr, if_pos h, decide_eq_true_eq]
  · simp only [quoteForPolicy, loanDbr, if_pos h]
  · intro hd
    simp only [quoteForPolicy, loanDbr, if_pos h, decide_eq_true_eq] at *
    exact le_of_eq hd
  · intro m hm
    simp only [check_affordability, if_neg hni, decide_eq_true_eq]
    exact le_of_eq hm

/-- Closed witness for C3 at a point where dbr equals the cap exactly. -/
theorem dbr_formula_inclusive_witness :
    (0:ℚ) < 6000 ∧
    loanDbr 100000 6000 1000 ⟨0, 40, 1/2⟩ = (1/2 : ℚ) ∧
    (quoteForPolicy 100000 6000 1000 ⟨0, 40, 1/2⟩).is_affordable = true :=
  ⟨by norm_num, by norm_num [loanDbr, npf_pmt],
    (dbr_formula_inclusive 100000 6000 1000 ⟨0, 40, 1/2⟩ (by norm_num)).2.2.1
      (by norm_num [loanDbr, npf_pmt])⟩

/-! String machinery for the regex-based routing predicates in
nodes/router.py. Python regexes over literal alternations are modelled with
substring search; `.*` is modelled as an arbitrary gap, which coincides with
re.search semantics on newline-free messages (all message constants in the
claims are single-line ASCII). Python str.lower and str.strip are modelled by
their ASCII restrictions. -/

/-- Model of Python str.lower (ASCII range). -/
def pyLower (s : String) : String := String.mk (s.data.map Char.toLower)

/-- Model of Python str.strip (ASCII whitespace). -/
def pyStrip (s : String) : String :=
  String.mk
    (((s.data.dropWhile Char.isWhitespace).reverse.dropWhile Char.isWhitespace).reverse)

/-- Boolean test that the first list is a prefix of the second. -/
def chPrefix : List Char → List Char → Bool
  | [], _ => true
  | _ :: _, [] => false
  | a :: as, b :: bs => a == b && chPrefix as bs

/-- Boolean test that the first list occurs contiguously in the second. -/
def chInfix : List Char → List Char → Bool
  | pat, [] => chPrefix pat []
  | pat, c :: rest => chPrefix pat (c :: rest) || chInfix pat rest

/-- Boolean test that the second list occurs and, somewhere at or after its
end, the third also occurs: the model of a regex literal-gap-literal pattern
a.*b searched anywhere in the text. -/
def chSeq (a b : List Char) : List Char → Bool
  | [] => chPrefix a [] && chInfix b []
  | c :: rest =>
    (chPrefix a (c :: rest) && chInfix b (List.drop a.length (c :: rest))) ||
      chSeq a b rest

/-- String-level substring test. -/
def strContains (hay pat : String) : Bool := chInfix pat.toList hay.toList

/-- String-level gap-pattern test for a.*b. -/
def strSeq (hay a b : String) : Bool := chSeq a.toList b.toList hay.toList

/-- Model of the regex word class \w, restricted to ASCII plus treating all
non-ASCII codepoints as word characters (the patterns of the source only place
word boundaries after letters). -/
def isWordChar (c : Char) : Bool := c.isAlphanum || c == '_' || decide (c.toNat ≥ 128)

/-- Boolean test that w matches at the start of l followed by a word
boundary: the model of re.match on a pattern anchored word alternative with a
trailing \b. -/
def matchWordAt (w : String) (l : List Char) : Bool :=
  chPrefix w.toList l &&
    (match List.drop w.toList.length l with
     | [] => true
     | c :: _ => !isWordChar c)

/-- Model of re.match over an anchored alternation of literal words each
followed by \b. -/
def reMatchWords (words : List String) (m : String) : Bool :=
  words.any (fun w => matchWordAt w m.toList)

/-- Embeds nodes/router.py _is_status_check (re.search over the six status
patterns, on the lowercased message). -/
def is_status_check (message : String) : Bool :=
  let l := pyLower message
  strContains l "status" ||
  (strSeq l "check" "application" || strSeq l "check" "request") ||
  (strSeq l "application" "id" || strSeq l "application" "number" ||
    strSeq l "request" "id" || strSeq l "request" "number") ||
  strContains l "track" ||
  (strSeq l "where" "application" || strSeq l "where" "request") ||
  (strSeq l "update" "application" || strSeq l "update" "request")

/-- Embeds nodes/router.py _is_confirmation (the source file stores its
second, originally Arabic, alternation as the literal mojibake characters
reproduced here). -/
def is_confirmation (message : String) : Bool :=
  reMatchWords
    ["yes", "yeah", "yep", "yup", "sure", "ok", "okay", "confirm", "proceed",
      "go ahead", "Ù†Ø¹Ù…", "Ø£ÙŠÙˆÙ‡", "ØªÙ…Ø§Ù…", "Ù…ÙˆØ§ÙÙ‚"]
    (pyStrip (pyLower message))

/-- Embeds nodes/router.py _is_rejection. -/
def is_rejection (message : String) : Bool :=
  reMatchWords
    ["no", "nope", "cancel", "stop", "never mind", "nevermind",
      "Ù„Ø§", "Ø§Ù„ØºÙŠ", "ØªÙˆÙ‚Ù"]
    (pyStrip (pyLower message))

/-- Embeds nodes/router.py _is_closing_intent. -/
def is_closing_intent (message : String) : Bool :=
  reMatchWords
    ["thanks", "thank you", "bye", "goodbye", "done", "finished",
      "Ø´ÙƒØ±Ø§", "Ù…Ø¹ Ø§Ù„Ø³Ù„Ø§Ù…Ø©"]
    (pyStrip (pyLower message))

/-- Embeds models.WorkflowPhase. -/
inductive WorkflowPhase where
  | onboarding | discovery | profiling | quotation | submission | completed
deriving Repr, DecidableEq

/-- Message entry as the router sees it: a sender flag (HumanMessage or not)
and the text content. -/
structure RMessage where
  isHuman : Bool
  content : String
deriving Repr, DecidableEq

/-- The slice of models.AgentState read by route_initial. -/
structure RouteState where
  messages : List RMessage
  request_id : Option String
  awaiting_confirmation : Option String
  current_phase : WorkflowPhase
deriving Repr, DecidableEq

/-- Python truthiness of an optional string field. -/
def optStrTruthy : Option String → Bool
  | none => false
  | some s => !s.isEmpty

/-- Embeds the phase_routing dict of nodes/router.py route_initial,
including its .get default "router". -/
def phaseRouting : WorkflowPhase → String
  | .onboarding => "router"
  | .discovery => "search_param"
  | .profiling => "profiling_logic"
  | .quotation => "quotation"
  | .submission => "submission"
  | .completed => "__end__"

/-- Embeds nodes/router.py route_initial. -/
def route_initial (s : RouteState) : String :=
  match s.messages.getLast? with
  | none => "router"
  | some last =>
    if !last.isHuman then "continue_flow"
    else
      let user_text := last.content
      if optStrTruthy s.request_id && is_closing_intent user_text then "__end__"
      else if is_status_check user_text then "status_check"
      else if optStrTruthy s.awaiting_confirmation then
        if is_confirmation user_text then
          if s.awaiting_confirmation == some "search" then "market_search"
          else if s.awaiting_confirmation == some "quote" then "submission"
          else phaseRouting s.current_phase
        else if is_rejection user_text then "search_param"
        else phaseRouting s.current_phase
      else phaseRouting s.current_phase

/-- Concrete state for the C1 counterexample: a search confirmation is
pending and the user message matches a status pattern. -/
def c1_pending_status_state : RouteState :=
  { messages := [⟨true, "status"⟩], request_id := none,
    awaiting_confirmation := some "search", current_phase := .discovery }

/-- C1 counterexample: with an interrupt outstanding
(awaiting_confirmation = "search") the router still takes the freshly
classified status-check branch, not any resume branch — the status test runs
before the pending-decision test in route_initial. -/
theorem route_resume_precedence_counterexample :
    c1_pending_status_state.awaiting_confirmation = some "search" ∧
    is_status_check "status" = true ∧
    route_initial c1_pending_status_state = "status_check" ∧
    route_initial c1_pending_status_state ≠ "market_search" ∧
    route_initial c1_pending_status_state ≠ "submission" ∧
    route_initial c1_pending_status_state ≠ "search_param" := by
  refine ⟨rfl, ?_, ?_, ?_, ?_, ?_⟩ <;> decide

/-- C1 amended: while an interrupt is pending, resume handling decides the
route only after closing-intent (with a stored request id) and status-check
classification have had priority; under those provisos a confirmation reply
routes by the pending tag (search to market_search, quote to submission) and a
rejection restarts the search, while replies matching neither fall through to
phase-based routing. -/
theorem route_resume_precedence_amended (s : RouteState) (last : RMessage)
    (hlast : s.messages.getLast? = some last) (hh : last.isHuman = true)
    (tag : String) (hawait : s.awaiting_confirmation = some tag)
    (htag : tag.isEmpty = false)
    (hstatus : is_status_check last.content = false)
    (hclose : (optStrTruthy s.request_id && is_closing_intent last.content) = false) :
    (is_confirmation last.content = true →
      (tag = "search" → route_initial s = "market_search") ∧
      (tag = "quote" → route_initial s = "submission")) ∧
    (is_confirmation last.content = false → is_rejection last.content = true →
      route_initial s = "search_param") ∧
    (is_confirmation last.content = false → is_rejection last.content = false →
      route_initial s = phaseRouting s.current_phase) := by
  have hot : optStrTruthy (some tag) = true := by simp [optStrTruthy, htag]
  unfold route_initial
  rw [hlast, hawait]
  simp only [hh, Bool.not_true, Bool.false_eq_true, if_false, hclose, hstatus,
    hot, if_true]
  refine ⟨?_, ?_, ?_⟩
  · intro hc
    refine ⟨?_, ?_⟩
    · intro ht; subst ht; simp [hc]
    · intro ht; subst ht; simp [hc]
  · intro hc hr
    simp [hc, hr]
  · intro hc hr
    simp [hc, hr]

/-- Concrete resume state for the C1 amended witness. -/
def c1_resume_state : RouteState :=
  { messages := [⟨true, "yes"⟩], request_id := none,
    awaiting_confirmation := some "search", current_phase := .discovery }

/-- Closed witness for the amended C1: a pending search confirmation answered
with yes routes to market_search. -/
theorem route_resume_precedence_amended_witness :
    route_initial c1_resume_state = "market_search" :=
  ((route_resume_precedence_amended c1_resume_state ⟨true, "yes"⟩ rfl rfl
    "search" rfl (by decide) (by decide) (by decide)).1 (by decide)).1 rfl

/-- Embeds models.EmploymentType. -/
inductive EmploymentType where
  | salaried | self_employed | corporate | other
deriving Repr, DecidableEq

/-- Embeds models.Vehicle (listing metadata fields mileage, source_url and
source_site carry no logic and are omitted). -/
structure Vehicle where
  name : String
  price : ℚ
  year : ℤ
deriving Repr, DecidableEq

/-- Embeds models.CreditPolicy. -/
structure CreditPolicy where
  interest_rate : ℚ
  max_tenure_months : ℤ
  max_debt_burden_ratio : ℚ
  min_income : ℚ
  max_vehicle_age : ℤ
  is_eligible : Bool
  rejection_reason : Option String
deriving Repr, DecidableEq

/-- Shape of one entry of tools/policy_rag.py FALLBACK_POLICIES. -/
structure PolicyParams where
  interest_rate : ℚ
  max_tenure_months : ℤ
  max_debt_burden_ratio : ℚ
  min_income : ℚ
  max_vehicle_age : ℤ
deriving Repr, DecidableEq

/-- Embeds tools/policy_rag.py FALLBACK_POLICIES; the source
dict .get(employment_type, FALLBACK_POLICIES[OTHER]) lookup is total over
the four employment types. -/
def FALLBACK_POLICIES : EmploymentType → PolicyParams
  | .corporate => ⟨16/100, 84, 55/100, 8000, 10⟩
  | .salaried => ⟨18/100, 72, 50/100, 6000, 10⟩
  | .self_employed => ⟨20/100, 60, 45/100, 10000, 8⟩
  | .other => ⟨22/100, 48, 40/100, 15000, 7⟩

/-- Embeds tools/policy_rag.py get_vehicle_age, with datetime.now().year made
an explicit parameter. -/
def get_vehicle_age (veh : Vehicle) (current_year : ℤ) : ℤ :=
  current_year - veh.year

/-- Helper for decimal comma grouping over reversed digit lists. -/
def commaGroupRev : List Char → ℕ → List Char
  | [], _ => []
  | c :: rest, k =>
    if k = 3 then ',' :: c :: commaGroupRev rest 1
    else c :: commaGroupRev rest (k + 1)

/-- Model of Python format(n, ",d") on an integer: decimal digits grouped in
threes by commas. -/
def fmtGrouped (n : ℤ) : String :=
  (if n < 0 then "-" else "") ++
    String.mk ((commaGroupRev (Nat.toDigits 10 n.natAbs).reverse 0).reverse)

/-- Model of the Python f-string conversion {x:,.0f}: round-half-even to an
integer, then comma-group. -/
def fmtMoney (x : ℚ) : String := fmtGrouped (roundHalfEven x)

/-- Embeds tools/policy_rag.py retrieve_credit_policy (the vectordb_id
argument is dead in the source — the fallback grid is always used). -/
def retrieve_credit_policy (emp : EmploymentType) (monthly_income : ℚ)
    (veh : Vehicle) (current_year : ℤ) : CreditPolicy :=
  let pp := FALLBACK_POLICIES emp
  let vehicle_age := get_vehicle_age veh current_year
  if monthly_income < pp.min_income then
    { interest_rate := pp.interest_rate,
      max_tenure_months := pp.max_tenure_months,
      max_debt_burden_ratio := pp.max_debt_burden_ratio,
      min_income := pp.min_income,
      max_vehicle_age := pp.max_vehicle_age,
      is_eligible := false,
      rejection_reason := some ("Minimum income requirement is " ++
        fmtMoney pp.min_income ++ " EGP. Your income of " ++
        fmtMoney monthly_income ++ " EGP does not meet this threshold.") }
  else if vehicle_age > pp.max_vehicle_age then
    { interest_rate := pp.interest_rate,
      max_tenure_months := pp.max_tenure_months,
      max_debt_burden_ratio := pp.max_debt_burden_ratio,
      min_income := pp.min_income,
      max_vehicle_age := pp.max_vehicle_age,
      is_eligible := false,
      rejection_reason := some ("Maximum vehicle age allowed is " ++
        toString pp.max_vehicle_age ++ " years. The selected vehicle (" ++
        toString veh.year ++ ") is " ++ toString vehicle_age ++ " years old.") }
  else
    { interest_rate := pp.interest_rate,
      max_tenure_months := pp.max_tenure_months,
      max_debt_burden_ratio := pp.max_debt_burden_ratio,
      min_income := pp.min_income,
      max_vehicle_age := pp.max_vehicle_age,
      is_eligible := true,
      rejection_reason := none }

/-- Helper: chPrefix holds on a list extended to the right. -/
theorem chPrefix_append (l t : List Char) : chPrefix l (l ++ t) = true := by
  induction l with
  | nil => rfl
  | cons a as ih => simp [chPrefix, ih]

/-- Helper: chInfix finds a pattern placed between two context lists. -/
theorem chInfix_append (pre pat post : List Char) :
    chInfix pat (pre ++ (pat ++ post)) = true := by
  induction pre with
  | nil =>
    cases pat with
    | nil =>
      cases post with
      | nil => rfl
      | cons c cs => simp [chInfix, chPrefix]
    | cons p ps =>
      simp only [chInfix, List.nil_append, Bool.or_eq_true]
      refine Or.inl ?_
      have h := chPrefix_append (p :: ps) post
      rwa [List.cons_append] at h
  | cons c cs ih => simp [chInfix, ih]

/-- Helper: a string built around a middle segment contains that segment. -/
theorem strContains_mid (a b c : String) : strContains (a ++ b ++ c) b = true := by
  show chInfix b.data (a ++ b ++ c).data = true
  have h : (a ++ b ++ c).data = a.data ++ (b.data ++ c.data) := by
    simp [String.data_append]
  rw [h]
  exact chInfix_append a.data b.data c.data

/-- Helper: containment of a middle segment given any decomposition of the
character data. -/
theorem strContains_parts (pre mid post s : String)
    (h : s.data = pre.data ++ (mid.data ++ post.data)) :
    strContains s mid = true := by
  show chInfix mid.data s.data = true
  rw [h]
  exact chInfix_append pre.data mid.data post.data

/-- C9: whenever the eligibility evaluation rejects, the rejection reason
names the failing criterion with the concrete values — the formatted minimum
income and the applicant income on an income shortfall, the maximum age and
the vehicle age otherwise; in the spec scenario (self-employed, income 3000,
minimum 10000, vehicle age within limit) the reason contains 10,000 and 3,000,
the comma-grouped renderings of 10000 and 3000 that the source produces. -/
theorem eligibility_rejection_cites_values :
    (∀ (emp : EmploymentType) (inc : ℚ) (veh : Vehicle) (year : ℤ),
      (retrieve_credit_policy emp inc veh year).is_eligible = false →
      ∃ reason,
        (retrieve_credit_policy emp inc veh year).rejection_reason = some reason ∧
        ((inc < (FALLBACK_POLICIES emp).min_income ∧
          strContains reason (fmtMoney (FALLBACK_POLICIES emp).min_income) = true ∧
          strContains reason (fmtMoney inc) = true) ∨
         (¬ inc < (FALLBACK_POLICIES emp).min_income ∧
          get_vehicle_age veh year > (FALLBACK_POLICIES emp).max_vehicle_age ∧
          strContains reason (toString (FALLBACK_POLICIES emp).max_vehicle_age) = true ∧
          strContains reason (toString (get_vehicle_age veh year)) = true))) ∧
    (∃ reason,
      (retrieve_credit_policy .self_employed 3000 ⟨"Corolla", 300000, 2024⟩ 2025).is_eligible = false ∧
      (retrieve_credit_policy .self_employed 3000 ⟨"Corolla", 300000, 2024⟩ 2025).rejection_reason = some reason ∧
      strContains reason "10,000" = true ∧
      strContains reason "3,000" = true ∧
      fmtMoney 10000 = "10,000" ∧ fmtMoney 3000 = "3,000") := by
  have hf10 : fmtMoney (10000:ℚ) = "10,000" := by
    have h1 : roundHalfEven (10000:ℚ) = 10000 := by norm_num [roundHalfEven]
    unfold fmtMoney
    rw [h1]
    decide
  have hf3 : fmtMoney (3000:ℚ) = "3,000" := by
    have h1 : roundHalfEven (3000:ℚ) = 3000 := by norm_num [roundHalfEven]
    unfold fmtMoney
    rw [h1]
    decide
  constructor
  · intro emp inc veh year h
    by_cases h1 : inc < (FALLBACK_POLICIES emp).min_income
    · refine ⟨"Minimum income requirement is " ++
        fmtMoney (FALLBACK_POLICIES emp).min_income ++ " EGP. Your income of " ++
        fmtMoney inc ++ " EGP does not meet this threshold.", ?_, Or.inl ⟨h1, ?_, ?_⟩⟩
      · simp [retrieve_credit_policy, if_pos h1]
      · exact strContains_parts "Minimum income requirement is "
          (fmtMoney (FALLBACK_POLICIES emp).min_income)
          (" EGP. Your income of " ++ fmtMoney inc ++
            " EGP does not meet this threshold.") _
          (by simp [String.data_append, List.append_assoc])
      · exact strContains_parts
          ("Minimum income requirement is " ++
            fmtMoney (FALLBACK_POLICIES emp).min_income ++ " EGP. Your income of ")
          (fmtMoney inc) " EGP does not meet this threshold." _
          (by simp [String.data_append, List.append_assoc])
    · by_cases h2 : get_vehicle_age veh year > (FALLBACK_POLICIES emp).max_vehicle_age
      · refine ⟨"Maximum vehicle age allowed is " ++
          toString (FALLBACK_POLICIES emp).max_vehicle_age ++
          " years. The selected vehicle (" ++ toString veh.year ++ ") is " ++
          toString (get_vehicle_age veh year) ++ " years old.", ?_,
          Or.inr ⟨h1, h2, ?_, ?_⟩⟩
        · simp [retrieve_credit_policy, if_neg h1, if_pos h2]
        · exact strContains_parts "Maximum vehicle age allowed is "
            (toString (FALLBACK_POLICIES emp).max_vehicle_age)
            (" years. The selected vehicle (" ++ toString veh.year ++ ") is " ++
              toString (get_vehicle_age veh year) ++ " years old.") _
            (by simp [String.data_append, List.append_assoc])
        · exact strContains_parts
            ("Maximum vehicle age allowed is " ++
              toString (FALLBACK_POLICIES emp).max_vehicle_age ++
              " years. The selected vehicle (" ++ toString veh.year ++ ") is ")
            (toString (get_vehicle_age veh year)) " years old." _
            (by simp [String.data_append, List.append_assoc])
      · exfalso
        revert h
        simp [retrieve_credit_policy, if_neg h1, if_neg h2]
  · have hlt : (3000:ℚ) < (FALLBACK_POLICIES .self_employed).min_income := by
      norm_num [FALLBACK_POLICIES]
    refine ⟨"Minimum income requirement is " ++
      fmtMoney (FALLBACK_POLICIES .self_employed).min_income ++
      " EGP. Your income of " ++ fmtMoney 3000 ++
      " EGP does not meet this threshold.", ?_, ?_, ?_, ?_, hf10, hf3⟩
    · simp [retrieve_credit_policy, if_pos hlt]
    · simp [retrieve_credit_policy, if_pos hlt]
    · show strContains ("Minimum income requirement is " ++
        fmtMoney (10000:ℚ) ++ " EGP. Your income of " ++ fmtMoney 3000 ++
        " EGP does not meet this threshold.") "10,000" = true
      rw [hf10, hf3]
      decide
    · show strContains ("Minimum income requirement is " ++
        fmtMoney (10000:ℚ) ++ " EGP. Your income of " ++ fmtMoney 3000 ++
        " EGP does not meet this threshold.") "3,000" = true
      rw [hf10, hf3]
      decide

/-- Closed witness for C9: applying the general clause at the spec scenario,
whose rejection is an income shortfall. -/
theorem eligibility_rejection_cites_values_witness :
    (retrieve_credit_policy .self_employed 3000 ⟨"Corolla", 300000, 2024⟩ 2025).is_eligible = false ∧
    ∃ reason,
      (retrieve_credit_policy .self_employed 3000 ⟨"Corolla", 300000, 2024⟩ 2025).rejection_reason = some reason ∧
      (((3000:ℚ) < (FALLBACK_POLICIES .self_employed).min_income ∧
        strContains reason (fmtMoney (FALLBACK_POLICIES .self_employed).min_income) = true ∧
        strContains reason (fmtMoney 3000) = true) ∨
       (¬ (3000:ℚ) < (FALLBACK_POLICIES .self_employed).min_income ∧
        get_vehicle_age ⟨"Corolla", 300000, 2024⟩ 2025 > (FALLBACK_POLICIES .self_employed).max_vehicle_age ∧
        strContains reason (toString (FALLBACK_POLICIES .self_employed).max_vehicle_age) = true ∧
        strContains reason (toString (get_vehicle_age ⟨"Corolla", 300000, 2024⟩ 2025)) = true)) :=
  ⟨by norm_num [retrieve_credit_policy, FALLBACK_POLICIES, get_vehicle_age],
    eligibility_rejection_cites_values.1 .self_employed 3000 ⟨"Corolla", 300000, 2024⟩ 2025
      (by norm_num [retrieve_credit_policy, FALLBACK_POLICIES, get_vehicle_age])⟩

/-! Vehicle selection: nodes/profiling_logic.py _extract_vehicle_selection and
nodes/selection.py selection_node. -/

/-- Value of a string of ASCII decimal digits, as Python int() computes it. -/
def digitsToNat (l : List Char) : ℕ :=
  l.foldl (fun acc c => 10 * acc + (c.toNat - 48)) 0

/-- Leftmost standalone digit 1-5 (word boundary on both sides): the model of
re.search on the pattern backslash-b ([1-5]) backslash-b. -/
def scanStandalone : Option Char → List Char → Option ℕ
  | _, [] => none
  | prev, c :: rest =>
    if ('1' ≤ c && c ≤ '5') &&
        (match prev with | none => true | some p => !isWordChar p) &&
        (match rest with | [] => true | d :: _ => !isWordChar d) then
      some (c.toNat - 48)
    else scanStandalone (some c) rest

/-- The ordinal-word table of _extract_vehicle_selection, in the insertion
order of the source dict. -/
def ordinalWords : List (String × ℕ) :=
  [("first", 0), ("second", 1), ("third", 2), ("fourth", 3), ("fifth", 4),
    ("1st", 0), ("2nd", 1), ("3rd", 2), ("4th", 3), ("5th", 4)]

/-- First ordinal word contained in the text whose index is within range, as
the for-loop of the source finds it. -/
def findOrdinal (chars : List Char) (n : ℕ) : List (String × ℕ) → Option ℕ
  | [] => none
  | (w, i) :: rest =>
    if chInfix w.data chars && decide (i < n) then some i
    else findOrdinal chars n rest

/-- Pattern 1 of _extract_vehicle_selection: an all-digit message used as a
1-based index. -/
def selectByDigits (chars : List Char) (vehicles : List Vehicle) : Option Vehicle :=
  if !chars.isEmpty && chars.all Char.isDigit then
    let idx : ℤ := (digitsToNat chars : ℤ) - 1
    if 0 ≤ idx && idx < vehicles.length then vehicles[idx.toNat]? else none
  else none

/-- Pattern 2 of _extract_vehicle_selection: ordinal words. -/
def selectByOrdinal (chars : List Char) (vehicles : List Vehicle) : Option Vehicle :=
  match findOrdinal chars vehicles.length ordinalWords with
  | some i => vehicles[i]?
  | none => none

/-- Pattern 3 of _extract_vehicle_selection: a standalone digit 1-5 in the
text. -/
def selectByStandalone (chars : List Char) (vehicles : List Vehicle) : Option Vehicle :=
  match scanStandalone none chars with
  | some d =>
    let idx : ℤ := (d : ℤ) - 1
    if 0 ≤ idx && idx < vehicles.length then vehicles[idx.toNat]? else none
  | none => none

/-- Embeds nodes/profiling_logic.py _extract_vehicle_selection: on the
lowercased stripped message, try the direct number, then ordinal words, then
a standalone digit; empty candidate list short-circuits to None. Out-of-range
results of a pattern fall through exactly as the early returns of the source do. -/
def extract_vehicle_selection (raw : String) (vehicles : List Vehicle) : Option Vehicle :=
  let chars := (pyStrip (pyLower raw)).data
  if vehicles.isEmpty then none
  else
    match selectByDigits chars vehicles with
    | some v => some v
    | none =>
      match selectByOrdinal chars vehicles with
      | some v => some v
      | none => selectByStandalone chars vehicles

/-- Embeds the selected_vehicle update of nodes/selection.py selection_node:
given the 1-based index produced by the LLM collaborator, the node sets
selected_vehicle only for an in-range index on a non-empty listing; in every
other branch the returned update omits the key, leaving selected_vehicle
unchanged. -/
def selection_update (idx : ℤ) (search_results : List Vehicle) : Option Vehicle :=
  if search_results.isEmpty then none
  else if 1 ≤ idx ∧ idx ≤ search_results.length then
    search_results[(idx - 1).toNat]?
  else none

/-- Helper: findOrdinal only returns in-range indices. -/
theorem findOrdinal_lt (chars : List Char) (n : ℕ) (l : List (String × ℕ)) (i : ℕ)
    (h : findOrdinal chars n l = some i) : i < n := by
  induction l with
  | nil => exact absurd h (by simp [findOrdinal])
  | cons wi rest ih =>
    unfold findOrdinal at h
    by_cases hc : (chInfix wi.1.data chars && decide (wi.2 < n)) = true
    · rw [if_pos hc] at h
      obtain ⟨-, h2⟩ := Bool.and_eq_true_iff.mp hc
      cases h
      exact of_decide_eq_true h2
    · rw [if_neg hc] at h
      exact ih h

/-- Helper: selectByDigits only returns an element at a valid 1-based
index. -/
theorem selectByDigits_sound (chars : List Char) (vs : List Vehicle) (v : Vehicle)
    (h : selectByDigits chars vs = some v) :
    ∃ i, 1 ≤ i ∧ i ≤ vs.length ∧ vs[i - 1]? = some v := by
  unfold selectByDigits at h
  by_cases h1 : (!chars.isEmpty && chars.all Char.isDigit) = true
  · rw [if_pos h1] at h
    by_cases h2 : (0 ≤ (digitsToNat chars : ℤ) - 1 &&
        (digitsToNat chars : ℤ) - 1 < (vs.length : ℤ)) = true
    · rw [if_pos h2] at h
      obtain ⟨h3, h4⟩ := Bool.and_eq_true_iff.mp h2
      have h3' : (0:ℤ) ≤ (digitsToNat chars : ℤ) - 1 := of_decide_eq_true h3
      have h4' : (digitsToNat chars : ℤ) - 1 < (vs.length : ℤ) := of_decide_eq_true h4
      refine ⟨((digitsToNat chars : ℤ) - 1).toNat + 1, by omega, by omega, ?_⟩
      simpa using h
    · rw [if_neg h2] at h
      exact absurd h (by simp)
  · rw [if_neg h1] at h
    exact absurd h (by simp)

/-- Helper: selectByOrdinal only returns an element at a valid 1-based
index. -/
theorem selectByOrdinal_sound (chars : List Char) (vs : List Vehicle) (v : Vehicle)
    (h : selectByOrdinal chars vs = some v) :
    ∃ i, 1 ≤ i ∧ i ≤ vs.length ∧ vs[i - 1]? = some v := by
  unfold selectByOrdinal at h
  cases hf : findOrdinal chars vs.length ordinalWords with
  | none => rw [hf] at h; exact absurd h (by simp)
  | some i =>
    rw [hf] at h
    have hi := findOrdinal_lt chars vs.length ordinalWords i hf
    exact ⟨i + 1, by omega, by omega, by simpa using h⟩

/-- Helper: selectByStandalone only returns an element at a valid 1-based
index. -/
theorem selectByStandalone_sound (chars : List Char) (vs : List Vehicle) (v : Vehicle)
    (h : selectByStandalone chars vs = some v) :
    ∃ i, 1 ≤ i ∧ i ≤ vs.length ∧ vs[i - 1]? = some v := by
  unfold selectByStandalone at h
  cases hf : scanStandalone none chars with
  | none => rw [hf] at h; exact absurd h (by simp)
  | some d =>
    rw [hf] at h
    dsimp only at h
    by_cases h2 : (0 ≤ (d:ℤ) - 1 && (d:ℤ) - 1 < (vs.length : ℤ)) = true
    · rw [if_pos h2] at h
      obtain ⟨h3, h4⟩ := Bool.and_eq_true_iff.mp h2
      have h3' : (0:ℤ) ≤ (d:ℤ) - 1 := of_decide_eq_true h3
      have h4' : (d:ℤ) - 1 < (vs.length : ℤ) := of_decide_eq_true h4
      refine ⟨((d:ℤ) - 1).toNat + 1, by omega, by omega, ?_⟩
      simpa using h
    · rw [if_neg h2] at h
      exact absurd h (by simp)

/-- C10: whatever vehicle the extraction or the selection node stores is an
element of the current candidate listing at a user-supplied 1-based index
within range; out-of-range indices and an empty listing produce no update, so
selected_vehicle is left unchanged. -/
theorem selection_within_candidates :
    (∀ (raw : String) (vehicles : List Vehicle) (v : Vehicle),
      extract_vehicle_selection raw vehicles = some v →
      ∃ i, 1 ≤ i ∧ i ≤ vehicles.length ∧ vehicles[i - 1]? = some v) ∧
    (∀ raw, extract_vehicle_selection raw [] = none) ∧
    (∀ (idx : ℤ) (results : List Vehicle) (v : Vehicle),
      selection_update idx results = some v →
      1 ≤ idx ∧ idx ≤ results.length ∧ results[(idx - 1).toNat]? = some v) ∧
    (∀ (idx : ℤ) (results : List Vehicle),
      ¬ (1 ≤ idx ∧ idx ≤ (results.length : ℤ)) → selection_update idx results = none) ∧
    (∀ idx : ℤ, selection_update idx [] = none) := by
  refine ⟨?_, ?_, ?_, ?_, ?_⟩
  · intro raw vehicles v h
    unfold extract_vehicle_selection at h
    by_cases hv : vehicles.isEmpty = true
    · rw [if_pos hv] at h
      exact absurd h (by simp)
    · rw [if_neg hv] at h
      cases h1 : selectByDigits (pyStrip (pyLower raw)).data vehicles with
      | some w =>
        rw [h1] at h
        cases h
        exact selectByDigits_sound _ _ _ h1
      | none =>
        rw [h1] at h
        cases h2 : selectByOrdinal (pyStrip (pyLower raw)).data vehicles with
        | some w =>
          rw [h2] at h
          cases h
          exact selectByOrdinal_sound _ _ _ h2
        | none =>
          rw [h2] at h
          exact selectByStandalone_sound _ _ _ h
  · intro raw
    simp [extract_vehicle_selection]
  · intro idx results v h
    unfold selection_update at h
    by_cases h1 : results.isEmpty = true
    · rw [if_pos h1] at h
      exact absurd h (by simp)
    · rw [if_neg h1] at h
      by_cases h2 : 1 ≤ idx ∧ idx ≤ (results.length : ℤ)
      · rw [if_pos h2] at h
        exact ⟨h2.1, h2.2, h⟩
      · rw [if_neg h2] at h
        exact absurd h (by simp)
  · intro idx results h
    unfold selection_update
    by_cases h1 : results.isEmpty = true
    · rw [if_pos h1]
    · rw [if_neg h1, if_neg h]
  · intro idx
    simp [selection_update]

/-- Concrete candidate listing for the C10 witness. -/
def c10_vehicles : List Vehicle :=
  [⟨"Accent", 500000, 2020⟩, ⟨"Elantra", 700000, 2021⟩, ⟨"Tucson", 900000, 2022⟩]

/-- Closed witness for C10: the message 2 selects the second listed vehicle,
index 2 is accepted by the selection node, and index 7 produces no update. -/
theorem selection_within_candidates_witness :
    (∃ i, 1 ≤ i ∧ i ≤ c10_vehicles.length ∧
      c10_vehicles[i - 1]? = some ⟨"Elantra", 700000, 2021⟩) ∧
    (1 ≤ (2:ℤ) ∧ (2:ℤ) ≤ c10_vehicles.length ∧
      c10_vehicles[((2:ℤ) - 1).toNat]? = some ⟨"Elantra", 700000, 2021⟩) ∧
    selection_update 7 c10_vehicles = none :=
  ⟨selection_within_candidates.1 "2" c10_vehicles ⟨"Elantra", 700000, 2021⟩ rfl,
    selection_within_candidates.2.2.1 2 c10_vehicles ⟨"Elantra", 700000, 2021⟩ rfl,
    selection_within_candidates.2.2.2.1 7 c10_vehicles (by decide)⟩

/-! Conversation state and node updates. The record below carries the union
of the state fields used by the parallel state schemas of the repository
(models.AgentState and state.AutoFinanceState): search_params_confirmed is
the flag declared by models.AgentState, while search_confirmed is the flag
the dict-based nodes (reset.py, market_search.py) actually write. Message
history is outside the record; what each node reads from it enters as an
explicit argument. -/

/-- Embeds models.SearchParams. -/
structure SearchParams where
  make : Option String
  model : Option String
  year_min : Option ℤ
  year_max : Option ℤ
  price_cap : Option ℚ
deriving Repr, DecidableEq

/-- Embeds models.CustomerInfo. -/
structure CustomerInfo where
  full_name : String
  email : String
  phone : String
  national_id : Option String
deriving Repr, DecidableEq

/-- The conversation state record (see the section comment above). -/
structure AgentStateModel where
  current_phase : WorkflowPhase
  search_params : Option SearchParams
  search_params_confirmed : Bool
  search_confirmed : Bool
  search_results : List Vehicle
  selected_vehicle : Option Vehicle
  monthly_income : Option ℚ
  employment_type : Option EmploymentType
  applicable_policy : Option CreditPolicy
  financial_quote : Option FinancialQuote
  quote_confirmed : Bool
  customer_info : Option CustomerInfo
  request_id : Option String
  awaiting_confirmation : Option String
deriving Repr, DecidableEq

/-- The empty state a new session starts from (models.AgentState defaults). -/
def initialAgentState : AgentStateModel :=
  { current_phase := .onboarding, search_params := none,
    search_params_confirmed := false, search_confirmed := false,
    search_results := [], selected_vehicle := none, monthly_income := none,
    employment_type := none, applicable_policy := none, financial_quote := none,
    quote_confirmed := false, customer_info := none, request_id := none,
    awaiting_confirmation := none }

/-- Embeds nodes/reset.py reset_state: the returned update dict carries only
search_params, search_results and search_confirmed (plus a message); merging
it into the state leaves every other field as it was. -/
def reset_state (s : AgentStateModel) : AgentStateModel :=
  { s with search_params := none, search_results := [], search_confirmed := false }

/-- Concrete mid-flow state for the C4 counterexample. -/
def c4_state : AgentStateModel :=
  { current_phase := .quotation,
    search_params := some ⟨some "Hyundai", some "Tucson", some 2022, none, some 1500000⟩,
    search_params_confirmed := true, search_confirmed := true,
    search_results := [⟨"Tucson", 1400000, 2022⟩],
    selected_vehicle := some ⟨"Tucson", 1400000, 2022⟩,
    monthly_income := some 30000, employment_type := some .salaried,
    applicable_policy := some ⟨18/100, 72, 50/100, 6000, 10, true, none⟩,
    financial_quote := some ⟨1400000, 18/100, 60, 35551, 733060, 2133060⟩,
    quote_confirmed := false,
    customer_info := some ⟨"Ahmed Mohamed", "ahmed@example.com", "01012345678", none⟩,
    request_id := none, awaiting_confirmation := some "quote" }

/-- C4 counterexample: after an explicit reset, the financial-profile fields
survive — selected_vehicle, monthly_income, employment_type,
applicable_policy, financial_quote and customer_info are all still set, so
the state is not returned to its empty initial values. -/
theorem reset_clears_everything_counterexample :
    (reset_state c4_state).search_params = none ∧
    (reset_state c4_state).selected_vehicle = c4_state.selected_vehicle ∧
    (reset_state c4_state).selected_vehicle ≠ none ∧
    (reset_state c4_state).monthly_income ≠ none ∧
    (reset_state c4_state).employment_type ≠ none ∧
    (reset_state c4_state).applicable_policy ≠ none ∧
    (reset_state c4_state).financial_quote ≠ none ∧
    (reset_state c4_state).customer_info ≠ none :=
  ⟨rfl, rfl, by simp [reset_state, c4_state], by simp [reset_state, c4_state],
    by simp [reset_state, c4_state], by simp [reset_state, c4_state],
    by simp [reset_state, c4_state], by simp [reset_state, c4_state]⟩

/-- C4 amended: an explicit reset clears exactly the three search fields —
search_params, search_results and search_confirmed — and preserves
selected_vehicle, monthly_income, employment_type, applicable_policy,
financial_quote, customer_info, request_id, the phase and the remaining
flags (the session identifier lives outside the state and is untouched). -/
theorem reset_clears_search_fields_only (s : AgentStateModel) :
    (reset_state s).search_params = none ∧
    (reset_state s).search_results = [] ∧
    (reset_state s).search_confirmed = false ∧
    (reset_state s).selected_vehicle = s.selected_vehicle ∧
    (reset_state s).monthly_income = s.monthly_income ∧
    (reset_state s).employment_type = s.employment_type ∧
    (reset_state s).applicable_policy = s.applicable_policy ∧
    (reset_state s).financial_quote = s.financial_quote ∧
    (reset_state s).customer_info = s.customer_info ∧
    (reset_state s).request_id = s.request_id ∧
    (reset_state s).current_phase = s.current_phase ∧
    (reset_state s).quote_confirmed = s.quote_confirmed ∧
    (reset_state s).search_params_confirmed = s.search_params_confirmed ∧
    (reset_state s).awaiting_confirmation = s.awaiting_confirmation :=
  ⟨rfl, rfl, rfl, rfl, rfl, rfl, rfl, rfl, rfl, rfl, rfl, rfl, rfl, rfl⟩

/-! Node state updates for the C2 transition system. Each function embeds the
dict returned by the corresponding node in nodes/, merged into the state;
collaborator outputs (LLM extraction results, search results, generated
request ids) are explicit arguments. -/

/-- Embeds nodes/router.py router_node: on a fresh onboarding conversation
(at most one message) the welcome branch advances the phase to discovery; the
zombie-prevention branches only emit messages. -/
def router_node_update (fresh : Bool) (s : AgentStateModel) : AgentStateModel :=
  if s.current_phase = .onboarding ∧ fresh = true then
    { s with current_phase := .discovery }
  else s

/-- Embeds nodes/search_param.py search_param_node: with a human message the
node stores the extracted parameters, clears their confirmation, and suspends
awaiting the search confirmation; with no human message it only reprompts. -/
def search_param_node_update (hasMsg : Bool) (params : SearchParams)
    (s : AgentStateModel) : AgentStateModel :=
  if hasMsg then
    { s with
      search_params := some params
      search_params_confirmed := false
      awaiting_confirmation := some "search"
      current_phase := .discovery }
  else { s with current_phase := .discovery }

/-- Embeds nodes/market_search.py search_market: stores the parsed vehicle
list (possibly empty) and marks the search executed. -/
def market_search_node_update (vehicles : List Vehicle)
    (s : AgentStateModel) : AgentStateModel :=
  { s with search_results := vehicles, search_confirmed := true }

/-- Embeds nodes/profiling_logic.py profiling_logic_node: first an index
extraction from the message when no vehicle is selected and listings exist,
then income/employment extraction filling only still-empty fields (the
truthiness check (if income:) of the source guards a zero extraction), else a bare
phase update. -/
def profiling_logic_node_update (msg : String) (inc : Option ℚ)
    (emp : Option EmploymentType) (s : AgentStateModel) : AgentStateModel :=
  match (if s.selected_vehicle = none ∧ ¬ s.search_results = [] then
      extract_vehicle_selection msg s.search_results else none) with
  | some v => { s with selected_vehicle := some v, current_phase := .profiling }
  | none =>
    let incUpd : Option ℚ :=
      if s.monthly_income = none then
        match inc with
        | some x => if x = 0 then none else some x
        | none => none
      else none
    let empUpd : Option EmploymentType :=
      if s.employment_type = none then emp else none
    if incUpd = none ∧ empUpd = none then { s with current_phase := .profiling }
    else
      { s with
        monthly_income :=
          (match incUpd with | some x => some x | none => s.monthly_income)
        employment_type :=
          (match empUpd with | some e => some e | none => s.employment_type) }

/-- Embeds nodes/ask_questions.py ask_income_node: prompts only, moving the
phase to profiling (or back to discovery when there is nothing to select). -/
def ask_income_node_update (s : AgentStateModel) : AgentStateModel :=
  if s.selected_vehicle = none ∧ ¬ s.search_results = [] then
    { s with current_phase := .profiling }
  else if s.selected_vehicle = none then { s with current_phase := .discovery }
  else { s with current_phase := .profiling }

/-- Embeds nodes/ask_questions.py ask_employment_node. -/
def ask_employment_node_update (s : AgentStateModel) : AgentStateModel :=
  { s with current_phase := .profiling }

/-- Embeds nodes/policy_rag.py policy_rag_node: guards on vehicle, income and
employment, then stores the retrieved policy — phase quotation when eligible,
back to discovery (with the rejecting policy still stored) when not. -/
def policy_rag_node_update (year : ℤ) (s : AgentStateModel) : AgentStateModel :=
  match s.selected_vehicle with
  | none => { s with current_phase := .discovery }
  | some veh =>
    match s.monthly_income with
    | none => s
    | some inc =>
      match s.employment_type with
      | none => s
      | some emp =>
        let policy := retrieve_credit_policy emp inc veh year
        if policy.is_eligible then
          { s with applicable_policy := some policy, current_phase := .quotation }
        else
          { s with applicable_policy := some policy, current_phase := .discovery }

/-- Embeds nodes/quotation.py quotation_node: requires a selected vehicle and
a stored policy (truthiness only — eligibility is not rechecked), computes
the quote with the calculator on min(policy tenure, configured default), and
stores it whether or not it is affordable; an unaffordable quote stays in
quotation without suspending. A calculator error would escape the node and
abort the turn, modelled as no state change. -/
def quotation_node_update (defaultTenure : ℤ) (s : AgentStateModel) : AgentStateModel :=
  match s.selected_vehicle with
  | none => { s with current_phase := .discovery }
  | some veh =>
    match s.applicable_policy with
    | none => { s with current_phase := .profiling }
    | some policy =>
      let tenure := min policy.max_tenure_months defaultTenure
      match calculate_monthly_installment veh.price policy.interest_rate tenure with
      | .error _ => s
      | .ok quote =>
        let income := match s.monthly_income with | some i => i | none => 0
        let aff := check_affordability quote.monthly_installment income
          policy.max_debt_burden_ratio
        if aff.1 then
          { s with
            financial_quote := some quote
            awaiting_confirmation := some "quote"
            current_phase := .quotation }
        else
          { s with financial_quote := some quote, current_phase := .quotation }

/-- Embeds nodes/submission.py submission_node: uses stored customer info or
an extraction from the message (the extraction is not persisted, exactly as
in the source), prompts when absent, refuses on missing vehicle or quote, and
on successful storage records the request id and completes; a storage failure
changes nothing modelled. -/
def submission_node_update (extracted : Option CustomerInfo) (rid : Option String)
    (s : AgentStateModel) : AgentStateModel :=
  match (match s.customer_info with | some c => some c | none => extracted) with
  | none => { s with current_phase := .submission }
  | some _ =>
    if s.selected_vehicle = none ∨ s.financial_quote = none then s
    else
      match rid with
      | some r => { s with request_id := some r, current_phase := .completed }
      | none => s

/-- Embeds nodes/status_check.py status_check_node, which only emits
messages. -/
def status_check_node_update (s : AgentStateModel) : AgentStateModel := s

/-- One engine turn of the AgentState workflow, over-approximating the
routing of route_initial: every node may fire at any time except
quotation_node, which route_initial reaches only in phase quotation (see
route_initial_quotation_phase); the year and configured default tenure are
fixed parameters of a run. -/
inductive NodeStep (year defaultTenure : ℤ) : AgentStateModel → AgentStateModel → Prop where
  | router (fresh : Bool) (s : AgentStateModel) :
      NodeStep year defaultTenure s (router_node_update fresh s)
  | search_param (hasMsg : Bool) (params : SearchParams) (s : AgentStateModel) :
      NodeStep year defaultTenure s (search_param_node_update hasMsg params s)
  | market_search (vehicles : List Vehicle) (s : AgentStateModel) :
      NodeStep year defaultTenure s (market_search_node_update vehicles s)
  | profiling_logic (msg : String) (inc : Option ℚ) (emp : Option EmploymentType)
      (s : AgentStateModel) :
      NodeStep year defaultTenure s (profiling_logic_node_update msg inc emp s)
  | ask_income (s : AgentStateModel) :
      NodeStep year defaultTenure s (ask_income_node_update s)
  | ask_employment (s : AgentStateModel) :
      NodeStep year defaultTenure s (ask_employment_node_update s)
  | policy_rag (s : AgentStateModel) :
      NodeStep year defaultTenure s (policy_rag_node_update year s)
  | quotation (s : AgentStateModel) (h : s.current_phase = .quotation) :
      NodeStep year defaultTenure s (quotation_node_update defaultTenure s)
  | submission (extracted : Option CustomerInfo) (rid : Option String)
      (s : AgentStateModel) :
      NodeStep year defaultTenure s (submission_node_update extracted rid s)
  | status_check (s : AgentStateModel) :
      NodeStep year defaultTenure s (status_check_node_update s)

/-- States reachable from the empty session state by engine turns. -/
inductive ReachableState (year defaultTenure : ℤ) : AgentStateModel → Prop where
  | init : ReachableState year defaultTenure initialAgentState
  | step {s t : AgentStateModel} : ReachableState year defaultTenure s →
      NodeStep year defaultTenure s t → ReachableState year defaultTenure t

/-- Helper: phaseRouting names quotation only for the quotation phase. -/
theorem phaseRouting_eq_quotation (p : WorkflowPhase) :
    phaseRouting p = "quotation" → p = .quotation := by
  cases p <;> simp [phaseRouting]

/-- Supporting fact for the quotation guard of NodeStep: route_initial sends
a turn to the quotation node only from phase quotation — every other branch
returns a different node name. -/
theorem route_initial_quotation_phase (s : RouteState) :
    route_initial s = "quotation" → s.current_phase = .quotation := by
  intro h
  unfold route_initial at h
  cases hm : s.messages.getLast? with
  | none =>
    rw [hm] at h
    dsimp only at h
    exact absurd h (by decide)
  | some last =>
    rw [hm] at h
    dsimp only at h
    split_ifs at h <;>
      first
        | exact absurd h (by decide)
        | exact phaseRouting_eq_quotation _ h

/-- The inductive invariant for C2: a stored quote entails a selected vehicle
and an eligible stored policy; being in phase quotation entails the same
(which protects quotation_node, whose own guard checks only truthiness); and
a stored policy is always the evaluation of the current, already-collected
profile, so re-running the evaluator cannot silently flip eligibility. -/
def QuoteInv (year : ℤ) (s : AgentStateModel) : Prop :=
  (s.financial_quote.isSome = true →
    s.selected_vehicle.isSome = true ∧
    ∃ p, s.applicable_policy = some p ∧ p.is_eligible = true) ∧
  (s.current_phase = .quotation →
    s.selected_vehicle.isSome = true ∧
    ∃ p, s.applicable_policy = some p ∧ p.is_eligible = true) ∧
  (∀ p, s.applicable_policy = some p →
    ∃ veh inc emp, s.selected_vehicle = some veh ∧ s.monthly_income = some inc ∧
      s.employment_type = some emp ∧ p = retrieve_credit_policy emp inc veh year)

/-- Preservation of the C2 invariant by the router node. -/
theorem inv_router (year : ℤ) {s : AgentStateModel} (h : QuoteInv year s)
    (fresh : Bool) : QuoteInv year (router_node_update fresh s) := by
  obtain ⟨h1, h2, h3⟩ := h
  unfold QuoteInv router_node_update
  split_ifs with hc
  · exact ⟨fun hq => h1 hq, fun hph => absurd hph (by simp), fun p hp => h3 p hp⟩
  · exact ⟨h1, h2, h3⟩

/-- Preservation of the C2 invariant by the search-parameter node. -/
theorem inv_search_param (year : ℤ) {s : AgentStateModel} (h : QuoteInv year s)
    (hasMsg : Bool) (params : SearchParams) :
    QuoteInv year (search_param_node_update hasMsg params s) := by
  obtain ⟨h1, h2, h3⟩ := h
  unfold QuoteInv search_param_node_update
  split_ifs with hc
  · exact ⟨fun hq => h1 hq, fun hph => absurd hph (by simp), fun p hp => h3 p hp⟩
  · exact ⟨fun hq => h1 hq, fun hph => absurd hph (by simp), fun p hp => h3 p hp⟩

/-- Preservation of the C2 invariant by the market-search node. -/
theorem inv_market_search (year : ℤ) {s : AgentStateModel} (h : QuoteInv year s)
    (vehicles : List Vehicle) :
    QuoteInv year (market_search_node_update vehicles s) := by
  obtain ⟨h1, h2, h3⟩ := h
  exact ⟨h1, h2, h3⟩

/-- Preservation of the C2 invariant by the profiling-logic node. -/
theorem inv_profiling_logic (year : ℤ) {s : AgentStateModel} (h : QuoteInv year s)
    (msg : String) (inc : Option ℚ) (emp : Option EmploymentType) :
    QuoteInv year (profiling_logic_node_update msg inc emp s) := by
  obtain ⟨h1, h2, h3⟩ := h
  unfold QuoteInv profiling_logic_node_update
  cases hsel : (if s.selected_vehicle = none ∧ ¬ s.search_results = [] then
      extract_vehicle_selection msg s.search_results else none) with
  | some v =>
    have hnone : s.selected_vehicle = none := by
      by_cases hg : s.selected_vehicle = none ∧ ¬ s.search_results = []
      · exact hg.1
      · rw [if_neg hg] at hsel
        exact absurd hsel (by simp)
    dsimp only
    refine ⟨?_, fun hph => absurd hph (by simp), ?_⟩
    · intro hq
      have hv := (h1 hq).1
      rw [hnone] at hv
      exact absurd hv (by simp)
    · intro p hp
      obtain ⟨veh, _, _, hveh, -⟩ := h3 p hp
      rw [hnone] at hveh
      exact absurd hveh (by simp)
  | none =>
    dsimp only
    by_cases hab : ((if s.monthly_income = none then
        (match inc with
         | some x => if x = 0 then none else some x
         | none => none)
        else none) = none ∧
        (if s.employment_type = none then emp else none) = none)
    · rw [if_pos hab]
      exact ⟨fun hq => h1 hq, fun hph => absurd hph (by simp), fun p hp => h3 p hp⟩
    · rw [if_neg hab]
      refine ⟨fun hq => h1 hq, fun hph => h2 hph, ?_⟩
      intro p hp
      obtain ⟨veh, inc₀, emp₀, hveh, hinc, hemp, hpol⟩ := h3 p hp
      have hni : ¬ s.monthly_income = none := by simp [hinc]
      have hne : ¬ s.employment_type = none := by simp [hemp]
      refine ⟨veh, inc₀, emp₀, hveh, ?_, ?_, hpol⟩
      · dsimp only
        rw [if_neg hni]
        exact hinc
      · dsimp only
        rw [if_neg hne]
        exact hemp

/-- Preservation of the C2 invariant by the ask-income node. -/
theorem inv_ask_income (year : ℤ) {s : AgentStateModel} (h : QuoteInv year s) :
    QuoteInv year (ask_income_node_update s) := by
  obtain ⟨h1, h2, h3⟩ := h
  unfold QuoteInv ask_income_node_update
  split_ifs with hc1 hc2 <;>
    exact ⟨fun hq => h1 hq, fun hph => absurd hph (by simp), fun p hp => h3 p hp⟩

/-- Preservation of the C2 invariant by the ask-employment node. -/
theorem inv_ask_employment (year : ℤ) {s : AgentStateModel} (h : QuoteInv year s) :
    QuoteInv year (ask_employment_node_update s) := by
  obtain ⟨h1, h2, h3⟩ := h
  unfold QuoteInv ask_employment_node_update
  exact ⟨fun hq => h1 hq, fun hph => absurd hph (by simp), fun p hp => h3 p hp⟩

/-- Preservation of the C2 invariant by the policy-RAG node. -/
theorem inv_policy_rag (year : ℤ) {s : AgentStateModel} (h : QuoteInv year s) :
    QuoteInv year (policy_rag_node_update year s) := by
  obtain ⟨h1, h2, h3⟩ := h
  unfold QuoteInv policy_rag_node_update
  cases hveh : s.selected_vehicle with
  | none =>
    refine ⟨?_, fun hph => absurd hph (by simp), ?_⟩
    · intro hq
      have hv := (h1 hq).1
      rw [hveh] at hv
      exact absurd hv (by simp)
    · intro p hp
      obtain ⟨veh, _, _, hv, -⟩ := h3 p hp
      rw [hveh] at hv
      exact absurd hv (by simp)
  | some veh =>
    cases hinc : s.monthly_income with
    | none => exact ⟨h1, h2, h3⟩
    | some inc =>
      cases hemp : s.employment_type with
      | none => exact ⟨h1, h2, h3⟩
      | some emp =>
        dsimp only
        split_ifs with helig
        · refine ⟨?_, ?_, ?_⟩
          · intro hq
            exact ⟨by simp [hveh], retrieve_credit_policy emp inc veh year, rfl, helig⟩
          · intro hph
            exact ⟨by simp [hveh], retrieve_credit_policy emp inc veh year, rfl, helig⟩
          · intro p hp
            injection hp with hp'
            exact ⟨veh, inc, emp, rfl, rfl, rfl, hp'.symm⟩
        · refine ⟨?_, fun hph => absurd hph (by simp), ?_⟩
          · intro hq
            obtain ⟨-, p₀, hp₀, helig₀⟩ := h1 hq
            obtain ⟨veh₀, inc₀, emp₀, hv₀, hi₀, he₀, hpol₀⟩ := h3 p₀ hp₀
            rw [hveh] at hv₀
            rw [hinc] at hi₀
            rw [hemp] at he₀
            injection hv₀ with hv₀'
            injection hi₀ with hi₀'
            injection he₀ with he₀'
            subst hv₀'
            subst hi₀'
            subst he₀'
            rw [hpol₀] at helig₀
            exact absurd helig₀ helig
          · intro p hp
            injection hp with hp'
            exact ⟨veh, inc, emp, rfl, rfl, rfl, hp'.symm⟩

/-- Preservation of the C2 invariant by the quotation node, which route
initial reaches only in phase quotation. -/
theorem inv_quotation (year dt : ℤ) {s : AgentStateModel} (h : QuoteInv year s)
    (hph : s.current_phase = .quotation) :
    QuoteInv year (quotation_node_update dt s) := by
  obtain ⟨h1, h2, h3⟩ := h
  obtain ⟨hv, p, hp, helig⟩ := h2 hph
  unfold QuoteInv quotation_node_update
  cases hveh : s.selected_vehicle with
  | none =>
    rw [hveh] at hv
    exact absurd hv (by simp)
  | some veh =>
    rw [hp]
    dsimp only
    cases hcalc : calculate_monthly_installment veh.price p.interest_rate
        (min p.max_tenure_months dt) with
    | error e =>
      dsimp only
      exact ⟨h1, h2, h3⟩
    | ok quote =>
      dsimp only
      split_ifs with haff <;>
      · refine ⟨fun _ => ⟨rfl, p, rfl, helig⟩, fun _ => ⟨rfl, p, rfl, helig⟩, ?_⟩
        intro q hq
        have hq' : some p = some q := hq
        injection hq' with hq''
        subst hq''
        obtain ⟨veh₀, inc₀, emp₀, hv₀, hi₀, he₀, hpol₀⟩ := h3 p hp
        rw [hveh] at hv₀
        injection hv₀ with hv'
        rw [← hv'] at hpol₀
        exact ⟨veh, inc₀, emp₀, rfl, hi₀, he₀, hpol₀⟩

/-- Preservation of the C2 invariant by the submission node. -/
theorem inv_submission (year : ℤ) {s : AgentStateModel} (h : QuoteInv year s)
    (extracted : Option CustomerInfo) (rid : Option String) :
    QuoteInv year (submission_node_update extracted rid s) := by
  obtain ⟨h1, h2, h3⟩ := h
  unfold QuoteInv submission_node_update
  cases hinfo : (match s.customer_info with
      | some c => some c
      | none => extracted) with
  | none =>
    exact ⟨fun hq => h1 hq, fun hph => absurd hph (by simp), fun p hp => h3 p hp⟩
  | some c =>
    dsimp only
    split_ifs with hmiss
    · exact ⟨h1, h2, h3⟩
    · cases rid with
      | none => exact ⟨h1, h2, h3⟩
      | some r =>
        exact ⟨fun hq => h1 hq, fun hph => absurd hph (by simp), fun p hp => h3 p hp⟩

/-- Preservation of the C2 invariant over one engine turn. -/
theorem quoteInv_preserved {year dt : ℤ} {s t : AgentStateModel}
    (h : QuoteInv year s) (hs : NodeStep year dt s t) : QuoteInv year t := by
  cases hs with
  | router fresh s => exact inv_router year h fresh
  | search_param hasMsg params s => exact inv_search_param year h hasMsg params
  | market_search vehicles s => exact inv_market_search year h vehicles
  | profiling_logic msg inc emp s => exact inv_profiling_logic year h msg inc emp
  | ask_income s => exact inv_ask_income year h
  | ask_employment s => exact inv_ask_employment year h
  | policy_rag s => exact inv_policy_rag year h
  | quotation s hph => exact inv_quotation year _ h hph
  | submission extracted rid s => exact inv_submission year h extracted rid
  | status_check s => exact h

/-- The C2 invariant holds in the empty initial state. -/
theorem quoteInv_init (year : ℤ) : QuoteInv year initialAgentState := by
  unfold QuoteInv initialAgentState
  refine ⟨?_, ?_, ?_⟩ <;> simp

/-- C2: in every reachable conversation state that carries a financial quote,
a vehicle is selected and the stored policy terms are eligible — no sequence
of engine turns produces a quote alongside an ineligible policy or a missing
vehicle. -/
theorem quote_implies_eligible_policy (year dt : ℤ) (s : AgentStateModel)
    (hr : ReachableState year dt s) (hq : s.financial_quote.isSome = true) :
    s.selected_vehicle.isSome = true ∧
    ∃ p, s.applicable_policy = some p ∧ p.is_eligible = true := by
  suffices hinv : QuoteInv year s by exact hinv.1 hq
  clear hq
  induction hr with
  | init => exact quoteInv_init year
  | step hr' hs ih => exact quoteInv_preserved ih hs

/-! Concrete trace for the C2 witness: welcome, search, one result, pick it,
give income and employment, eligible policy, quote. -/

/-- Vehicle found by the search of the witness trace. -/
def c2_vehicle : Vehicle := ⟨"Tucson", 300000, 2024⟩

/-- Search parameters extracted in the witness trace. -/
def c2_params : SearchParams := ⟨some "Hyundai", some "Tucson", some 2024, none, none⟩

/-- Witness trace states, one engine turn each. -/
def c2_s1 : AgentStateModel := router_node_update true initialAgentState

/-- Second trace state: parameters stored, search confirmation pending. -/
def c2_s2 : AgentStateModel := search_param_node_update true c2_params c2_s1

/-- Third trace state: the confirmed search returned one vehicle. -/
def c2_s3 : AgentStateModel := market_search_node_update [c2_vehicle] c2_s2

/-- Fourth trace state: the user message 1 selects the vehicle. -/
def c2_s4 : AgentStateModel := profiling_logic_node_update "1" none none c2_s3

/-- Fifth trace state: income and employment extracted. -/
def c2_s5 : AgentStateModel :=
  profiling_logic_node_update "my income" (some 30000) (some .salaried) c2_s4

/-- Sixth trace state: the eligible policy is stored, phase quotation. -/
def c2_s6 : AgentStateModel := policy_rag_node_update 2025 c2_s5

/-- Final trace state: the quote is computed and stored. -/
def c2_s7 : AgentStateModel := quotation_node_update 60 c2_s6

/-- Evaluation of the fourth trace state. -/
theorem c2_s4_eval : c2_s4 =
    { initialAgentState with
      current_phase := .profiling
      search_params := some c2_params
      awaiting_confirmation := some "search"
      search_confirmed := true
      search_results := [c2_vehicle]
      selected_vehicle := some c2_vehicle } := rfl

/-- Evaluation of the fifth trace state. -/
theorem c2_s5_eval : c2_s5 =
    { initialAgentState with
      current_phase := .profiling
      search_params := some c2_params
      awaiting_confirmation := some "search"
      search_confirmed := true
      search_results := [c2_vehicle]
      selected_vehicle := some c2_vehicle
      monthly_income := some 30000
      employment_type := some .salaried } := by
  show profiling_logic_node_update "my income" (some 30000) (some .salaried) c2_s4 = _
  rw [c2_s4_eval]
  norm_num [profiling_logic_node_update, initialAgentState]
  simp

/-- The policy the witness trace retrieves. -/
def c2_policy : CreditPolicy := ⟨18/100, 72, 50/100, 6000, 10, true, none⟩

/-- The salaried fallback policy accepts the witness profile. -/
theorem c2_policy_eval :
    retrieve_credit_policy .salaried 30000 c2_vehicle 2025 = c2_policy := by
  norm_num [retrieve_credit_policy, FALLBACK_POLICIES, get_vehicle_age, c2_vehicle,
    c2_policy]

/-- Evaluation of the sixth trace state. -/
theorem c2_s6_eval : c2_s6 =
    { initialAgentState with
      current_phase := .quotation
      search_params := some c2_params
      awaiting_confirmation := some "search"
      search_confirmed := true
      search_results := [c2_vehicle]
      selected_vehicle := some c2_vehicle
      monthly_income := some 30000
      employment_type := some .salaried
      applicable_policy := some c2_policy } := by
  show policy_rag_node_update 2025 c2_s5 = _
  rw [c2_s5_eval]
  unfold policy_rag_node_update
  dsimp only
  rw [c2_policy_eval]
  norm_num [c2_policy, initialAgentState]

/-- The sixth trace state is in phase quotation, as the quotation step
requires. -/
theorem c2_s6_phase : c2_s6.current_phase = .quotation := by
  rw [c2_s6_eval]

/-- The final trace state carries a financial quote. -/
theorem c2_s7_quote_isSome : c2_s7.financial_quote.isSome = true := by
  show (quotation_node_update 60 c2_s6).financial_quote.isSome = true
  rw [c2_s6_eval]
  unfold quotation_node_update
  dsimp only [c2_policy, c2_vehicle]
  rw [calc_ok_of_valid 300000 (18/100) (min (72:ℤ) 60) (by norm_num) (by norm_num)
    (by norm_num)]
  dsimp only
  split_ifs <;> rfl

/-- The final trace state is reachable. -/
theorem c2_s7_reachable : ReachableState 2025 60 c2_s7 :=
  ReachableState.step
    (ReachableState.step
      (ReachableState.step
        (ReachableState.step
          (ReachableState.step
            (ReachableState.step
              (ReachableState.step ReachableState.init
                (NodeStep.router true initialAgentState))
              (NodeStep.search_param true c2_params c2_s1))
            (NodeStep.market_search [c2_vehicle] c2_s2))
          (NodeStep.profiling_logic "1" none none c2_s3))
        (NodeStep.profiling_logic "my income" (some 30000) (some .salaried) c2_s4))
      (NodeStep.policy_rag c2_s5))
    (NodeStep.quotation c2_s6 c2_s6_phase)

/-- Closed witness for C2: a reachable state with a quote, at which the
invariant yields a selected vehicle and an eligible policy. -/
theorem quote_implies_eligible_policy_witness :
    c2_s7.financial_quote.isSome = true ∧
    (c2_s7.selected_vehicle.isSome = true ∧
      ∃ p, c2_s7.applicable_policy = some p ∧ p.is_eligible = true) :=
  ⟨c2_s7_quote_isSome,
    quote_implies_eligible_policy 2025 60 c2_s7 c2_s7_reachable c2_s7_quote_isSome⟩

end AutoFinance
